import Mathlib

/-!
Verification of `conda/win_batlink.py`: the generators `make_bat_link` and
`make_bat_unlink` that render Windows batch scripts performing deferred
hardlink / delete operations.

The Python module computes paths with `os.path.join`, `os.path.split` and
`os.path.abspath` from `ntpath` (the Windows path module of Python 2.7).
Those helpers are embedded below on `List Char`, following the CPython
`ntpath.py` definitions (`join`, `split`, `splitdrive`, `isabs`,
`normpath`, and the generic `abspath` fallback `normpath(join(cwd, p))`).
Two pieces of ambient state are made explicit parameters:
  * `cwd` — the process working directory consulted by `abspath` on
    relative inputs;
  * `has_mklink` — the truth value of `find_executable('mklink')`, the
    hardlink-tool probe.
Python's `set` has unspecified iteration order; the destination-directory
set is realised as the first-occurrence deduplicated list (`collectDirs`).
No claim below depends on the relative order of the `mkdir` lines, only on
their multiplicity and content.
-/

namespace WinBatlink

/-- A path separator character on Windows: backslash or forward slash. -/
def isSlash (c : Char) : Bool := c == '\\' || c == '/'

/-- `ntpath.splitdrive`: split off a `X:` drive specifier when the second
character is a colon. -/
def splitdriveL : List Char → List Char × List Char
  | a :: ':' :: rest => ([a, ':'], rest)
  | p => ([], p)

/-- `ntpath.isabs`: the drive-stripped remainder starts with a slash. -/
def isabsL (p : List Char) : Bool :=
  match (splitdriveL p).2 with
  | [] => false
  | c :: _ => isSlash c

/-- Does the path start with a drive specifier (`p[1:2] == ":"`)? -/
def hasDriveColon (p : List Char) : Bool :=
  match p with
  | _ :: ':' :: _ => true
  | _ => false

/-- `ntpath.join` (Python 2.7) restricted to two components. -/
def joinL (a b : List Char) : List Char :=
  let bWins : Bool :=
    if a.isEmpty then true
    else if isabsL b then
      if !(hasDriveColon a) || hasDriveColon b then true
      else decide (a.length > 3) ||
        (decide (a.length = 3) && !(isSlash (a.getLastD ' ')))
    else false
  if bWins then b
  else
    match a.getLast? with
    | none => b
    | some last =>
      if isSlash last then
        match b with
        | c :: rest => if isSlash c then a ++ rest else a ++ b
        | [] => a
      else if last == ':' then a ++ b
      else
        match b with
        | c :: _ => if isSlash c then a ++ b else a ++ '\\' :: b
        | [] => a ++ ['\\']

/-- `ntpath.split`: head/tail at the last slash, trailing slashes stripped
from the head unless the head is all slashes. -/
def splitL (p : List Char) : List Char × List Char :=
  let (d, q) := splitdriveL p
  let rev := q.reverse
  let tail := (rev.takeWhile (fun c => !(isSlash c))).reverse
  let headRev := rev.dropWhile (fun c => !(isSlash c))
  let head := headRev.reverse
  let head2 := (headRev.dropWhile isSlash).reverse
  ((d ++ if head2.isEmpty then head else head2), tail)

/-- Does the path begin with the literal device prefixes that
`ntpath.normpath` leaves untouched? -/
def hasSpecialPre (p : List Char) : Bool :=
  match p with
  | '\\' :: '\\' :: '.' :: '\\' :: _ => true
  | '\\' :: '\\' :: '?' :: '\\' :: _ => true
  | _ => false

/-- Split a char list on backslashes (Python `path.split("\\")`). -/
def splitOnBS : List Char → List (List Char)
  | [] => [[]]
  | '\\' :: rest => [] :: splitOnBS rest
  | c :: rest =>
    match splitOnBS rest with
    | [] => [[c]]
    | x :: xs => (c :: x) :: xs

/-- One step of `ntpath.normpath`'s component loop, phrased as a stack
update: drop empty and `.` components, resolve `..` against the stack. -/
def normStep (preSlash : Bool) (stack : List (List Char)) (comp : List Char) :
    List (List Char) :=
  if comp.isEmpty || comp == ['.'] then stack
  else if comp == ['.', '.'] then
    match stack.getLast? with
    | some last => if last == ['.', '.'] then stack ++ [comp] else stack.dropLast
    | none => if preSlash then stack else stack ++ [comp]
  else stack ++ [comp]

/-- `ntpath.normpath` (Python 2.7). -/
def normpathL (p : List Char) : List Char :=
  if hasSpecialPre p then p
  else
    let p := p.map (fun c => if c == '/' then '\\' else c)
    let (pre, path) := splitdriveL p
    let (pre, path) :=
      if pre.isEmpty then
        (path.takeWhile (· == '\\'), path.dropWhile (· == '\\'))
      else if path.head? == some '\\' then
        (pre ++ ['\\'], path.dropWhile (· == '\\'))
      else (pre, path)
    let comps := (splitOnBS path).foldl (normStep (pre.getLast? == some '\\')) []
    if pre.isEmpty && comps.isEmpty then ['.']
    else pre ++ List.intercalate ['\\'] comps

/-- `ntpath.abspath` (generic fallback): join onto the working directory
when relative, then normalise. -/
def abspathL (cwd p : List Char) : List Char :=
  if isabsL p then normpathL p else normpathL (joinL cwd p)

/-- String-level `os.path.join`. -/
def ntjoin (a b : String) : String := ⟨joinL a.data b.data⟩

/-- String-level `os.path.split`. -/
def ntsplit (p : String) : String × String :=
  let (h, t) := splitL p.data
  (⟨h⟩, ⟨t⟩)

/-- String-level `os.path.abspath`, with the working directory explicit. -/
def abspath (cwd p : String) : String := ⟨abspathL cwd.data p.data⟩

/-- `WINXP_LINK = "fsutil.exe hardlink create {dest} {source}"`. -/
def WINXP_LINK (dest source : String) : String :=
  "fsutil.exe hardlink create " ++ dest ++ " " ++ source

/-- `WINVISTA_LINK = "mklink /H {dest} {source}"`. -/
def WINVISTA_LINK (dest source : String) : String :=
  "mklink /H " ++ dest ++ " " ++ source

/-- `MAKE_DIR = "mkdir {dst_dir}"`. -/
def MAKE_DIR (dst_dir : String) : String := "mkdir " ++ dst_dir

/-- `FILE_DELETE = "del /Q {dest}"`. -/
def FILE_DELETE (dest : String) : String := "del /Q " ++ dest

/-- `DIR_DELETE = "rmdir /Q {dest}"`. -/
def DIR_DELETE (dest : String) : String := "rmdir /Q " ++ dest

/-- `BAT_LINK_HEADER` with its `mkdirs` and `links` slots substituted. -/
def BAT_LINK_HEADER (mkdirs links : String) : String :=
  "@echo off\n> NUL (\n" ++ mkdirs ++ "\n)\n\n> NUL (\n" ++ links ++ "\n)\n"

/-- `BAT_UNLINK_HEADER` with its `filedeletes` and `dirdeletes` slots
substituted. -/
def BAT_UNLINK_HEADER (filedeletes dirdeletes : String) : String :=
  "@echo off\n\n> NUL (\n" ++ filedeletes ++ "\n\n" ++ dirdeletes ++ "\n)\n"

/-- `source = abspath(join(dist_dir, file))` in the `make_bat_link` loop. -/
def sourcePath (cwd dist_dir file : String) : String :=
  abspath cwd (ntjoin dist_dir file)

/-- `dst_dir = join(prefix, fdn)` where `fdn, fbn = split(file)`; the loop
records `abspath(dst_dir)` in the directory set. -/
def destDir (cwd pfx file : String) : String :=
  abspath cwd (ntjoin pfx (ntsplit file).1)

/-- `dest = abspath(join(dst_dir, fbn))` in the `make_bat_link` loop. -/
def destPath (cwd pfx file : String) : String :=
  abspath cwd (ntjoin (ntjoin pfx (ntsplit file).1) (ntsplit file).2)

/-- `LINK = WINVISTA_LINK if has_mklink else WINXP_LINK`. -/
def linkTemplate (has_mklink : Bool) : String → String → String :=
  if has_mklink then WINVISTA_LINK else WINXP_LINK

/-- The `links` list built by the `make_bat_link` loop, one rendered
hardlink command per entry of `files`, in order. -/
def linkCmds (cwd : String) (has_mklink : Bool) (files : List String)
    (pfx dist_dir : String) : List String :=
  files.map (fun file =>
    linkTemplate has_mklink (destPath cwd pfx file) (sourcePath cwd dist_dir file))

/-- The per-file destination directories, before deduplication. -/
def destDirs (cwd : String) (files : List String) (pfx : String) : List String :=
  files.map (destDir cwd pfx)

/-- `dirs.add(d)`: insert into the set, realised as append-if-absent. -/
def addDir (acc : List String) (d : String) : List String :=
  if d ∈ acc then acc else acc ++ [d]

/-- The contents of the `dirs` set after the loop (first-occurrence order;
Python's set iteration order is unspecified and no claim depends on it). -/
def collectDirs (l : List String) : List String := l.foldl addDir []

/-- `mkdirs = [MAKE_DIR.format(dst_dir=dn) for dn in dirs]`. -/
def mkdirCmds (cwd : String) (files : List String) (pfx : String) : List String :=
  (collectDirs (destDirs cwd files pfx)).map MAKE_DIR

/-- `make_bat_link(files, prefix, dist_dir)`, with the working directory
and the `find_executable('mklink')` probe result as explicit parameters. -/
def make_bat_link (cwd : String) (has_mklink : Bool) (files : List String)
    (pfx dist_dir : String) : String :=
  BAT_LINK_HEADER (String.intercalate "\n" (mkdirCmds cwd files pfx))
    (String.intercalate "\n" (linkCmds cwd has_mklink files pfx dist_dir))

/-- `filedeletes = [FILE_DELETE.format(dest=abspath(file)) for file in files]`. -/
def fileDeleteCmds (cwd : String) (files : List String) : List String :=
  files.map (fun file => FILE_DELETE (abspath cwd file))

/-- `dirdeletes = [DIR_DELETE.format(dest=abspath(dir)) for dir in directories]`. -/
def dirDeleteCmds (cwd : String) (directories : List String) : List String :=
  directories.map (fun dir => DIR_DELETE (abspath cwd dir))

/-- `make_bat_unlink(files, directories, prefix, dist_dir)`; the last two
parameters appear in the Python signature but are never read. -/
def make_bat_unlink (cwd : String) (files directories : List String)
    (pfx dist_dir : String) : String :=
  BAT_UNLINK_HEADER (String.intercalate "\n" (fileDeleteCmds cwd files))
    (String.intercalate "\n" (dirDeleteCmds cwd directories))

theorem addDir_nodup {acc : List String} {d : String} (h : acc.Nodup) :
    (addDir acc d).Nodup := by
  unfold addDir
  split
  · exact h
  · next hd => simp [List.nodup_append, h, hd]

theorem addDir_toFinset (acc : List String) (d : String) :
    (addDir acc d).toFinset = insert d acc.toFinset := by
  unfold addDir
  split
  · next h => exact (Finset.insert_eq_self.2 (List.mem_toFinset.2 h)).symm
  · simp [Finset.insert_eq, Finset.union_comm]

theorem foldl_addDir (l : List String) :
    ∀ acc : List String, acc.Nodup →
      (l.foldl addDir acc).Nodup ∧
        (l.foldl addDir acc).toFinset = acc.toFinset ∪ l.toFinset := by
  induction l with
  | nil => intro acc h; simpa using h
  | cons x xs ih =>
    intro acc h
    obtain ⟨hn, hf⟩ := ih (addDir acc x) (addDir_nodup h)
    refine ⟨hn, ?_⟩
    rw [List.foldl_cons] at *
    rw [hf, addDir_toFinset]
    simp [Finset.insert_union, Finset.union_insert]

/-- The deduplicated directory list has as many entries as there are
distinct directories. -/
theorem collectDirs_length (l : List String) :
    (collectDirs l).length = l.toFinset.card := by
  obtain ⟨hn, hf⟩ := foldl_addDir l [] List.nodup_nil
  unfold collectDirs
  rw [← List.toFinset_card_of_nodup hn, hf]
  simp

/-- C1: for every non-empty `file_list`, the link script contains exactly
`len(file_list)` hardlink commands (duplicates are not deduplicated) and
exactly one mkdir command per distinct destination directory implied by
`file_list`; the script embeds those two command lists verbatim. -/
theorem link_script_command_counts (cwd : String) (has_mklink : Bool)
    (files : List String) (pfx dist_dir : String) (hne : files ≠ []) :
    (linkCmds cwd has_mklink files pfx dist_dir).length = files.length ∧
    (mkdirCmds cwd files pfx).length = (destDirs cwd files pfx).toFinset.card ∧
    make_bat_link cwd has_mklink files pfx dist_dir =
      BAT_LINK_HEADER (String.intercalate "\n" (mkdirCmds cwd files pfx))
        (String.intercalate "\n" (linkCmds cwd has_mklink files pfx dist_dir)) := by
  refine ⟨?_, ?_, rfl⟩
  · simp [linkCmds]
  · simp [mkdirCmds, collectDirs_length, destDirs]

/-- Witness for C1 at `files = ["a/b.dll"]`. -/
theorem link_script_command_counts_witness :
    (["a/b.dll"] : List String) ≠ [] ∧
    ((linkCmds "C:\\cwd" true ["a/b.dll"] "C:\\env" "C:\\pkgs\\foo").length =
        (["a/b.dll"] : List String).length ∧
      (mkdirCmds "C:\\cwd" ["a/b.dll"] "C:\\env").length =
        (destDirs "C:\\cwd" ["a/b.dll"] "C:\\env").toFinset.card ∧
      make_bat_link "C:\\cwd" true ["a/b.dll"] "C:\\env" "C:\\pkgs\\foo" =
        BAT_LINK_HEADER
          (String.intercalate "\n" (mkdirCmds "C:\\cwd" ["a/b.dll"] "C:\\env"))
          (String.intercalate "\n"
            (linkCmds "C:\\cwd" true ["a/b.dll"] "C:\\env" "C:\\pkgs\\foo"))) :=
  ⟨by decide,
    link_script_command_counts "C:\\cwd" true ["a/b.dll"] "C:\\env" "C:\\pkgs\\foo"
      (by decide)⟩

/-- C2: every rendered hardlink command is the fixed template text followed
by the destination path, a space, and the source path — the destination
token strictly precedes the source token under both templates. -/
theorem hardlink_cmd_dest_before_source (cwd : String) (has_mklink : Bool)
    (files : List String) (pfx dist_dir : String) :
    linkCmds cwd has_mklink files pfx dist_dir =
      files.map (fun file =>
        (if has_mklink then "mklink /H " else "fsutil.exe hardlink create ") ++
          destPath cwd pfx file ++ " " ++ sourcePath cwd dist_dir file) := by
  cases has_mklink <;> rfl

/-- C3: the template is a function of the probe result alone and is applied
uniformly to every entry of one call; a negative probe is not an error —
the script is still fully assembled, with the legacy `fsutil` template. -/
theorem template_choice_probe_only (cwd : String) (files : List String)
    (pfx dist_dir : String) :
    (∀ has_mklink : Bool,
      linkCmds cwd has_mklink files pfx dist_dir =
        files.map (fun file =>
          (if has_mklink then WINVISTA_LINK else WINXP_LINK)
            (destPath cwd pfx file) (sourcePath cwd dist_dir file))) ∧
    make_bat_link cwd false files pfx dist_dir =
      BAT_LINK_HEADER (String.intercalate "\n" (mkdirCmds cwd files pfx))
        (String.intercalate "\n" (files.map (fun file =>
          WINXP_LINK (destPath cwd pfx file) (sourcePath cwd dist_dir file)))) := by
  exact ⟨fun b => by cases b <;> rfl, rfl⟩

/-- C4: on `["a/b.dll"]` with install root `C:\env` and source root
`C:\pkgs\foo`, one mkdir for `C:\env\a` and one hardlink command with path
tokens `C:\env\a\b.dll` (destination) then `C:\pkgs\foo\a\b.dll` (source). -/
theorem single_dll_example (cwd : String) (has_mklink : Bool) :
    mkdirCmds cwd ["a/b.dll"] "C:\\env" = ["mkdir C:\\env\\a"] ∧
    linkCmds cwd has_mklink ["a/b.dll"] "C:\\env" "C:\\pkgs\\foo" =
      [(if has_mklink then "mklink /H " else "fsutil.exe hardlink create ") ++
        "C:\\env\\a\\b.dll" ++ " " ++ "C:\\pkgs\\foo\\a\\b.dll"] := by
  cases has_mklink <;> exact ⟨rfl, rfl⟩

/-- C5: the unlink script is one quiet file delete per file in input order,
then one quiet directory delete per directory in input order, embedded in
that order in the script body; on `["x.txt", "y.txt"]` and `["sub"]` that
is two file deletes followed by one directory delete. -/
theorem unlink_script_order (cwd : String) (files directories : List String)
    (pfx dist_dir : String) :
    make_bat_unlink cwd files directories pfx dist_dir =
      "@echo off\n\n> NUL (\n" ++
        String.intercalate "\n" (fileDeleteCmds cwd files) ++ "\n\n" ++
        String.intercalate "\n" (dirDeleteCmds cwd directories) ++ "\n)\n" ∧
    fileDeleteCmds cwd files =
      files.map (fun file => "del /Q " ++ abspath cwd file) ∧
    dirDeleteCmds cwd directories =
      directories.map (fun dir => "rmdir /Q " ++ abspath cwd dir) ∧
    (fileDeleteCmds cwd ["x.txt", "y.txt"]).length = 2 ∧
    (dirDeleteCmds cwd ["sub"]).length = 1 :=
  ⟨rfl, rfl, rfl, rfl, rfl⟩

/-- C6: an empty `file_list` yields empty mkdir and link sections while the
fixed template text (the `@echo off` header and both `> NUL` blocks)
remains: the output is exactly the fixed template. -/
theorem empty_file_list_link_script (cwd : String) (has_mklink : Bool)
    (pfx dist_dir : String) :
    make_bat_link cwd has_mklink [] pfx dist_dir =
      "@echo off\n> NUL (\n\n)\n\n> NUL (\n\n)\n" ∧
    mkdirCmds cwd [] pfx = [] ∧
    linkCmds cwd has_mklink [] pfx dist_dir = [] :=
  ⟨rfl, rfl, rfl⟩

/-- C7: both scripts start with `@echo off` and wrap their command sections
in `> NUL ( ... )` blocks — two blocks for the link script, one for the
unlink script — and every command line comes verbatim from the fixed
templates `mklink /H`, `fsutil.exe hardlink create`, `mkdir`, `del /Q`,
`rmdir /Q`. -/
theorem script_grammar_fixed_templates (cwd : String) (has_mklink : Bool)
    (files fdel ddel : List String) (pfx dist_dir : String) :
    make_bat_link cwd has_mklink files pfx dist_dir =
      "@echo off\n> NUL (\n" ++
        String.intercalate "\n" (mkdirCmds cwd files pfx) ++
        "\n)\n\n> NUL (\n" ++
        String.intercalate "\n" (linkCmds cwd has_mklink files pfx dist_dir) ++
        "\n)\n" ∧
    make_bat_unlink cwd fdel ddel pfx dist_dir =
      "@echo off\n\n> NUL (\n" ++
        String.intercalate "\n" (fileDeleteCmds cwd fdel) ++ "\n\n" ++
        String.intercalate "\n" (dirDeleteCmds cwd ddel) ++ "\n)\n" ∧
    mkdirCmds cwd files pfx =
      (collectDirs (destDirs cwd files pfx)).map (fun d => "mkdir " ++ d) ∧
    linkCmds cwd has_mklink files pfx dist_dir =
      files.map (fun file =>
        (if has_mklink then "mklink /H " else "fsutil.exe hardlink create ") ++
          destPath cwd pfx file ++ " " ++ sourcePath cwd dist_dir file) ∧
    fileDeleteCmds cwd fdel =
      fdel.map (fun file => "del /Q " ++ abspath cwd file) ∧
    dirDeleteCmds cwd ddel =
      ddel.map (fun dir => "rmdir /Q " ++ abspath cwd dir) := by
  cases has_mklink <;> exact ⟨rfl, rfl, rfl, rfl, rfl, rfl⟩

/-- C8: with the working directory and the probe result fixed, both
generators are pure functions of their arguments — repeated calls with
identical inputs produce byte-identical output. -/
theorem generators_deterministic (cwd : String) (has_mklink : Bool)
    (files directories : List String) (pfx dist_dir : String) :
    make_bat_link cwd has_mklink files pfx dist_dir =
      make_bat_link cwd has_mklink files pfx dist_dir ∧
    make_bat_unlink cwd files directories pfx dist_dir =
      make_bat_unlink cwd files directories pfx dist_dir :=
  ⟨rfl, rfl⟩

/-- C9: the unlink generator never reads its `prefix` and `dist_dir`
arguments, so its output depends only on the file and directory lists
(and the ambient working directory used by `abspath`). -/
theorem unlink_ignores_prefix_dist_dir (cwd : String)
    (files directories : List String) (p1 d1 p2 d2 : String) :
    make_bat_unlink cwd files directories p1 d1 =
      make_bat_unlink cwd files directories p2 d2 :=
  rfl

/-- C10: the i-th hardlink command of the link script is rendered from the
i-th entry of `file_list` — the commands appear in exactly the input
order. -/
theorem link_cmds_preserve_order (cwd : String) (has_mklink : Bool)
    (files : List String) (pfx dist_dir : String) (i : Nat) :
    (linkCmds cwd has_mklink files pfx dist_dir)[i]? =
      files[i]?.map (fun file =>
        linkTemplate has_mklink (destPath cwd pfx file)
          (sourcePath cwd dist_dir file)) := by
  simp [linkCmds]

end WinBatlink
